import Mathlib

/-!
Shallow embedding of the InventoryReportWizard core (src/utils.py):
the sheet validator `validate_excel_file` and the normalization /
metrics engine `load_and_process_inventory`.

Modelling conventions:
* A spreadsheet cell as produced by `pandas.read_excel` is a `RawCell`:
  blank (read as NaN), a numeric value, or text that does not parse as
  a number.  Text whose content does parse numerically behaves exactly
  like a numeric cell under `pd.to_numeric`, so it is modelled as `num`.
* float64 values are modelled by `PFloat`: an exact rational, NaN, or a
  signed infinity.  Rounding is abstracted away (exact rational
  arithmetic); the special-value propagation rules (0/0 = NaN,
  x/0 = ±inf, NaN contagion, sign rules for infinities) follow IEEE-754
  as implemented by numpy.  Signed zero is identified with zero: the
  pipeline only ever divides by values produced by `fillna(0)` /
  column sums, where the sign of a zero is unobservable.
* `pandas` row order is preserved as list order; freshly loaded frames
  carry the default RangeIndex, so index alignment of two Series (used
  at utils.py:102) coincides with positional alignment and is modelled
  by `List.zipWith` (positions past the shorter series align with NaN
  and are then skipped by `.sum()`).
-/

/-- A raw spreadsheet cell: blank (NaN after `read_excel`), a numeric
value, or text that does not parse as a number. -/
inductive RawCell where
  | blank : RawCell
  | num : ℚ → RawCell
  | text : String → RawCell
deriving DecidableEq, Repr, Inhabited

/-- `pd.to_numeric(cell, errors='coerce')` on a single cell: the numeric
value, or NaN (`none`) when the cell is blank or non-numeric text. -/
def toNumeric : RawCell → Option ℚ
  | .num q => some q
  | .blank => none
  | .text _ => none

/-- `pd.to_numeric(cell, errors='coerce').fillna(0)` on a single cell. -/
def coerceNum (c : RawCell) : ℚ := (toNumeric c).getD 0

/-- A pandas/numpy float64 as it flows through this pipeline, with the
finite case kept exact (ℚ) instead of rounded. -/
inductive PFloat where
  | num : ℚ → PFloat
  | nan : PFloat
  | posInf : PFloat
  | negInf : PFloat
deriving DecidableEq, Repr, Inhabited

namespace PFloat

/-- IEEE-754 float division as performed by numpy (exact in the finite
case): `0/0 = NaN`, `a/0 = ±inf` for `a ≠ 0`, NaN is contagious,
`±inf/±inf = NaN`, finite divided by infinite is `0`. -/
def div : PFloat → PFloat → PFloat
  | nan, _ => nan
  | _, nan => nan
  | posInf, posInf => nan
  | posInf, negInf => nan
  | negInf, posInf => nan
  | negInf, negInf => nan
  | posInf, num b => if 0 ≤ b then posInf else negInf
  | negInf, num b => if 0 ≤ b then negInf else posInf
  | num _, posInf => num 0
  | num _, negInf => num 0
  | num a, num b =>
      if b = 0 then
        (if a = 0 then nan else if 0 < a then posInf else negInf)
      else num (a / b)

/-- IEEE-754 float multiplication as performed by numpy (exact in the
finite case): NaN is contagious, `±inf * 0 = NaN`, otherwise infinities
follow the sign rules. -/
def mul : PFloat → PFloat → PFloat
  | nan, _ => nan
  | _, nan => nan
  | posInf, posInf => posInf
  | posInf, negInf => negInf
  | negInf, posInf => negInf
  | negInf, negInf => posInf
  | posInf, num b => if b = 0 then nan else if 0 < b then posInf else negInf
  | num a, posInf => if a = 0 then nan else if 0 < a then posInf else negInf
  | negInf, num b => if b = 0 then nan else if 0 < b then negInf else posInf
  | num a, negInf => if a = 0 then nan else if 0 < a then negInf else posInf
  | num a, num b => num (a * b)

/-- `Series.replace([np.inf, -np.inf], 0)` on a single value: both
infinities become `0`; finite values and NaN pass through unchanged. -/
def replaceInf : PFloat → PFloat
  | posInf => num 0
  | negInf => num 0
  | x => x

/-- The finite component of a value (`none` for NaN and infinities). -/
def toRat? : PFloat → Option ℚ
  | num q => some q
  | _ => none

/-- `Series.mean()` with the default `skipna=True`: NaN entries are
excluded; an empty or all-NaN series yields NaN; an infinite entry makes
the sum (hence the mean) infinite, and mixed-sign infinities give NaN. -/
def meanSkipNa (xs : List PFloat) : PFloat :=
  if xs.contains posInf then (if xs.contains negInf then nan else posInf)
  else if xs.contains negInf then negInf
  else
    let nums := xs.filterMap toRat?
    if nums.isEmpty then nan else num (nums.sum / (nums.length : ℚ))

/-- A value is finite when it is neither NaN nor an infinity. -/
def isFinite : PFloat → Prop
  | num _ => True
  | _ => False

instance : DecidablePred isFinite := by
  intro x
  unfold isFinite
  cases x <;> infer_instance

end PFloat

/-- One row of the `Inventario` sheet, fields named after the raw
headers; `load_and_process_inventory` renames `Codigo → Item_Number`,
`Descripcion → Description`, `Stock → Units_Sold`,
`Precio Sala → Floor_Price`, `Outlet → Outlet_Price` (utils.py:48-54),
which here is reflected by the accessor names below. -/
structure InvRow where
  Codigo : RawCell
  Descripcion : String
  Stock : RawCell
  PrecioSala : RawCell
  Outlet : RawCell
deriving DecidableEq, Repr, Inhabited

namespace InvRow

/-- `inventario_df['Units_Sold']` after `to_numeric(...).fillna(0)`
(utils.py:66). -/
def Units_Sold (r : InvRow) : ℚ := coerceNum r.Stock

/-- `inventario_df['Floor_Price']` after `to_numeric(...).fillna(0)`
(utils.py:67). -/
def Floor_Price (r : InvRow) : ℚ := coerceNum r.PrecioSala

/-- `inventario_df['Outlet_Price']` after `to_numeric(...).fillna(0)`
(utils.py:65). -/
def Outlet_Price (r : InvRow) : ℚ := coerceNum r.Outlet

/-- `inventario_df['Total_Sales_Outlet_Price']` (utils.py:76). -/
def Total_Sales_Outlet_Price (r : InvRow) : ℚ := r.Outlet_Price * r.Units_Sold

/-- `inventario_df['Total_Sales_Floor_Price']` (utils.py:77). -/
def Total_Sales_Floor_Price (r : InvRow) : ℚ := r.Floor_Price * r.Units_Sold

/-- `inventario_df['Average_Selling_Price']` (utils.py:80-81):
`(Total_Sales_Outlet_Price / Units_Sold).replace([inf, -inf], 0)`. -/
def Average_Selling_Price (r : InvRow) : PFloat :=
  PFloat.replaceInf
    (PFloat.div (.num r.Total_Sales_Outlet_Price) (.num r.Units_Sold))

/-- `inventario_df['Discount_Percentage']` (utils.py:83-84):
`((Floor_Price - Outlet_Price) / Floor_Price * 100).replace([inf, -inf], 0)`. -/
def Discount_Percentage (r : InvRow) : PFloat :=
  PFloat.replaceInf
    (PFloat.mul
      (PFloat.div (.num (r.Floor_Price - r.Outlet_Price)) (.num r.Floor_Price))
      (.num 100))

end InvRow

/-- One row of the `Outlet` sheet; `load_and_process_inventory` renames
`Número de artículo → Item_Number`, `Descripción del artículo →
Description`, `Total anual → Total_Annual_Sales`, `Stock al 1 de oct →
Units_In_Stock` (utils.py:57-62).  `monthly` holds the nine cells
`Enero..Septiembre` in order. -/
structure OutRow where
  NumeroArticulo : RawCell
  Descripcion : String
  TotalAnual : RawCell
  StockOct : RawCell
  monthly : List RawCell
deriving DecidableEq, Repr, Inhabited

namespace OutRow

/-- `outlet_df['Units_In_Stock']` after `to_numeric(...).fillna(0)`
(utils.py:68). -/
def Units_In_Stock (r : OutRow) : ℚ := coerceNum r.StockOct

end OutRow

/-- Is a cell non-numeric text? -/
def RawCell.isText : RawCell → Bool
  | .text _ => true
  | _ => false

/-- `outlet_df[monthly_columns].sum(axis=1)` on one row (utils.py:87).
The monthly columns are NOT passed through `to_numeric`: blank cells
(NaN) are skipped by the default `skipna=True`, numeric cells are
summed, but a non-numeric text cell makes the row sum raise a
`TypeError` (adding `str` to a number), modelled as `error`.  (The
corner case of a row whose cells are all text concatenates the strings
instead and then fails at the later numeric aggregation of the column;
it is collapsed into the same error case.) -/
def sumMonthly (cells : List RawCell) : Except Unit ℚ :=
  if cells.any RawCell.isText then .error ()
  else .ok (cells.filterMap toNumeric).sum

/-- `outlet_df['Total_Units_Sold']` for one row (utils.py:87). -/
def OutRow.Total_Units_Sold (r : OutRow) : Except Unit ℚ := sumMonthly r.monthly

/-- `Series.idxmax` on a (default-indexed, NaN-free) series: the first
position holding the maximum value; pandas documents the tie-break as
"the first row label with that value".  Only applied to non-empty
series here (pandas raises on an empty one). -/
def idxmaxQ (xs : List ℚ) : ℕ :=
  match xs.max? with
  | some m => xs.indexOf m
  | none => 0

/-- `Series.idxmin`, first position holding the minimum value. -/
def idxminQ (xs : List ℚ) : ℕ :=
  match xs.min? with
  | some m => xs.indexOf m
  | none => 0

/-- The `metrics` dictionary compiled at utils.py:110-138. -/
structure Metrics where
  total_sales_outlet : ℚ
  total_sales_floor : ℚ
  total_units_sold : ℚ
  avg_selling_price : PFloat
  avg_discount : PFloat
  inventory_turnover : PFloat
  sell_through_rate : PFloat
  stock_to_sales_ratio : PFloat
  inventory_coverage : PFloat
  best_seller : String × ℚ
  worst_seller : String × ℚ
  unsold_items : List String
deriving DecidableEq, Repr

/-- The exceptions `load_and_process_inventory` can surface: the
`ValueError` re-raised at utils.py:45 (carrying its message), or the
uncaught `TypeError` escaping from the monthly row sums (utils.py:87),
which the function does not handle. -/
inductive ProcError where
  | loadError : String → ProcError
  | typeError : ProcError
deriving DecidableEq, Repr

/-- `metrics['unsold_items']` (utils.py:138): descriptions of the
inventory rows whose coerced `Units_Sold` equals 0, in source order. -/
def unsoldItems (inventario : List InvRow) : List String :=
  (inventario.filter (fun r => r.Units_Sold == 0)).map (fun r => r.Descripcion)

/-- The metric computations of utils.py:70-138, for inputs that passed
the emptiness check and whose monthly row sums (`totals`) succeeded.
`mean` of the NaN-free coerced `Units_In_Stock` column is `sum/length`. -/
def computeMetrics (inventario : List InvRow) (outlet : List OutRow)
    (totals : List ℚ) : Metrics :=
  let cost_of_goods_sold : ℚ :=
    (inventario.map (fun r => r.Units_Sold * r.Outlet_Price)).sum
  let average_inventory : ℚ :=
    (outlet.map OutRow.Units_In_Stock).sum / (outlet.length : ℚ)
  let inventory_turnover : PFloat :=
    if average_inventory ≠ 0 then
      PFloat.div (.num cost_of_goods_sold) (.num average_inventory)
    else .num 0
  let total_units_sold : ℚ := totals.sum
  let total_units_in_stock : ℚ := (outlet.map OutRow.Units_In_Stock).sum
  let sell_through_rate : PFloat :=
    if total_units_sold + total_units_in_stock ≠ 0 then
      PFloat.mul
        (PFloat.div (.num total_units_sold)
          (.num (total_units_sold + total_units_in_stock)))
        (.num 100)
    else .num 0
  let inventory_value : ℚ :=
    (List.zipWith (fun o r => o.Units_In_Stock * r.Outlet_Price)
      outlet inventario).sum
  let total_sales : ℚ := (inventario.map InvRow.Total_Sales_Outlet_Price).sum
  let stock_to_sales_ratio : PFloat :=
    if total_sales ≠ 0 then
      PFloat.div (.num inventory_value) (.num total_sales)
    else .num 0
  let monthly_sales_rate : ℚ := (inventario.map InvRow.Units_Sold).sum / 30
  let inventory_coverage : PFloat :=
    if monthly_sales_rate ≠ 0 then
      PFloat.div (.num total_units_in_stock) (.num monthly_sales_rate)
    else .num 0
  let units_col : List ℚ := inventario.map InvRow.Units_Sold
  let best_selling : InvRow := inventario.getD (idxmaxQ units_col) default
  let least_selling : InvRow := inventario.getD (idxminQ units_col) default
  { total_sales_outlet := total_sales
    total_sales_floor := (inventario.map InvRow.Total_Sales_Floor_Price).sum
    total_units_sold := total_units_sold
    avg_selling_price :=
      PFloat.meanSkipNa (inventario.map InvRow.Average_Selling_Price)
    avg_discount :=
      PFloat.meanSkipNa (inventario.map InvRow.Discount_Percentage)
    inventory_turnover := inventory_turnover
    sell_through_rate := sell_through_rate
    stock_to_sales_ratio := stock_to_sales_ratio
    inventory_coverage := inventory_coverage
    best_seller := (best_selling.Descripcion, best_selling.Units_Sold)
    worst_seller := (least_selling.Descripcion, least_selling.Units_Sold)
    unsold_items := unsoldItems inventario }

/-- `load_and_process_inventory` (utils.py:32-140), applied to the two
already-parsed sheets.  If either sheet is empty, the `ValueError` of
utils.py:43 is caught and re-raised with the wrapper message of
utils.py:45.  A non-numeric text cell in a monthly column makes the
row sums of utils.py:87 raise an uncaught `TypeError`.  Otherwise all
metrics are computed and returned. -/
def load_and_process_inventory (inventario : List InvRow)
    (outlet : List OutRow) : Except ProcError Metrics :=
  if inventario.isEmpty || outlet.isEmpty then
    .error (.loadError "Error loading Excel file: One or more sheets are empty")
  else
    match outlet.mapM OutRow.Total_Units_Sold with
    | .error _ => .error .typeError
    | .ok totals => .ok (computeMetrics inventario outlet totals)

/-- Result of `validate_excel_file`: `(True, "File is valid")`, or
`(False, "Missing required sheets: ...")` carrying the set of missing
sheet names (the Python code renders the set `required_sheets -
file_sheets` into the message; the set itself is modelled). -/
inductive ValidationResult where
  | valid : ValidationResult
  | missingSheets : Finset String → ValidationResult
deriving DecidableEq

/-- `required_sheets = {"Inventario", "Outlet"}` (utils.py:21). -/
def requiredSheets : Finset String := {"Inventario", "Outlet"}

/-- `validate_excel_file` (utils.py:17-30) on a readable workbook whose
sheet-name set is `fileSheets`: valid iff `required_sheets ⊆
file_sheets`, otherwise reports `required_sheets - file_sheets`. -/
def validate_excel_file (fileSheets : Finset String) : ValidationResult :=
  if requiredSheets ⊆ fileSheets then .valid
  else .missingSheets (requiredSheets \ fileSheets)

/-! ### Basic facts about the embedded operations -/

theorem PFloat.replaceInf_ne_posInf (x : PFloat) : x.replaceInf ≠ .posInf := by
  cases x <;> simp [PFloat.replaceInf]

theorem PFloat.replaceInf_ne_negInf (x : PFloat) : x.replaceInf ≠ .negInf := by
  cases x <;> simp [PFloat.replaceInf]

theorem PFloat.div_num_num {a b : ℚ} (hb : b ≠ 0) :
    PFloat.div (.num a) (.num b) = .num (a / b) := by
  simp [PFloat.div, hb]

/-- The per-row average selling price, characterised: NaN for a row
without sales (its numerator `outlet_price * 0` is also `0`, so the
division is `0/0`), and exactly the outlet price otherwise. -/
theorem ASP_eq (r : InvRow) :
    r.Average_Selling_Price =
      if r.Units_Sold = 0 then PFloat.nan else PFloat.num r.Outlet_Price := by
  unfold InvRow.Average_Selling_Price InvRow.Total_Sales_Outlet_Price
  by_cases h : r.Units_Sold = 0
  · simp [h, mul_zero, PFloat.div, PFloat.replaceInf]
  · rw [PFloat.div_num_num h, mul_div_cancel_right₀ _ h]
    simp [h, PFloat.replaceInf]

/-- The per-row discount percentage of a row with floor price 0,
characterised: the numerator is `-outlet_price`, so the division is
`0/0` (NaN) when the outlet price is also 0, and ±infinity
(replaced by 0) otherwise. -/
theorem Discount_eq_zero_floor (r : InvRow) (h : r.Floor_Price = 0) :
    r.Discount_Percentage =
      if r.Outlet_Price = 0 then PFloat.nan else PFloat.num 0 := by
  unfold InvRow.Discount_Percentage
  rw [h, zero_sub]
  by_cases hp : r.Outlet_Price = 0
  · simp [hp, PFloat.div, PFloat.mul, PFloat.replaceInf]
  · by_cases hlt : r.Outlet_Price < 0 <;>
      norm_num [PFloat.div, PFloat.mul, PFloat.replaceInf, hp, hlt]

/-- A sample inventory row with no sales (`Stock = 0`) but a nonzero
outlet price. -/
def rowUnsold : InvRow :=
  { Codigo := .num 1, Descripcion := "Gadget", Stock := .num 0,
    PrecioSala := .num 30, Outlet := .num 20 }

/-- C1: the claim "for every inventory row with units_sold = 0 the
derived average_selling_price equals 0" is false on the code: at
`Stock = 0`, `Outlet = 20` the numerator is `20 * 0 = 0`, the division
is `0/0`, which pandas evaluates to NaN, and
`.replace([inf, -inf], 0)` (utils.py:81) does not touch NaN. -/
theorem C1_counterexample :
    rowUnsold.Units_Sold = 0 ∧
      rowUnsold.Average_Selling_Price ≠ PFloat.num 0 ∧
      rowUnsold.Average_Selling_Price = PFloat.nan := by
  have hu : rowUnsold.Units_Sold = 0 := rfl
  have h := ASP_eq rowUnsold
  rw [if_pos hu] at h
  exact ⟨hu, by rw [h]; decide, h⟩

/-- C1 (amended): for every inventory row with units_sold = 0 the
derived average_selling_price is NaN, not 0; for every row it is never
+infinity or -infinity, those being replaced by 0 (utils.py:81). -/
theorem C1_asp_zero_units (r : InvRow) :
    (r.Units_Sold = 0 → r.Average_Selling_Price = PFloat.nan) ∧
      r.Average_Selling_Price ≠ PFloat.posInf ∧
      r.Average_Selling_Price ≠ PFloat.negInf := by
  refine ⟨fun h => by simp [ASP_eq, h], ?_, ?_⟩ <;>
    unfold InvRow.Average_Selling_Price
  · exact PFloat.replaceInf_ne_posInf _
  · exact PFloat.replaceInf_ne_negInf _

theorem C1_witness :
    rowUnsold.Units_Sold = 0 ∧ rowUnsold.Average_Selling_Price = PFloat.nan :=
  ⟨rfl, (C1_asp_zero_units rowUnsold).1 rfl⟩

/-- A sample inventory row with `Precio Sala = 0` and `Outlet = 0`. -/
def rowFree : InvRow :=
  { Codigo := .num 2, Descripcion := "Freebie", Stock := .num 3,
    PrecioSala := .num 0, Outlet := .num 0 }

/-- C3: the claim "discount_percentage = 0 when floor_price = 0,
including when outlet_price is also 0" is false on the code: with both
prices 0 the division is `0/0`, which is NaN, and
`.replace([inf, -inf], 0)` (utils.py:84) does not touch NaN. -/
theorem C3_counterexample :
    rowFree.Floor_Price = 0 ∧
      rowFree.Discount_Percentage ≠ PFloat.num 0 ∧
      rowFree.Discount_Percentage = PFloat.nan := by
  have hf : rowFree.Floor_Price = 0 := rfl
  have hp : rowFree.Outlet_Price = 0 := rfl
  have h := Discount_eq_zero_floor rowFree hf
  rw [if_pos hp] at h
  exact ⟨hf, by rw [h]; decide, h⟩

/-- C3 (amended): for an inventory row with floor_price = 0 the derived
discount_percentage is 0 when outlet_price ≠ 0 (the division gives
±infinity, which is replaced by 0) but NaN when outlet_price is also 0
(the division is 0/0). -/
theorem C3_discount_zero_floor (r : InvRow) (h : r.Floor_Price = 0) :
    r.Discount_Percentage =
      if r.Outlet_Price = 0 then PFloat.nan else PFloat.num 0 :=
  Discount_eq_zero_floor r h

theorem C3_witness :
    rowFree.Floor_Price = 0 ∧
      rowFree.Discount_Percentage =
        (if rowFree.Outlet_Price = 0 then PFloat.nan else PFloat.num 0) :=
  ⟨rfl, C3_discount_zero_floor rowFree rfl⟩

/-! ### Sample tables used as concrete inputs -/

/-- Sample inventory table: the two rows used by spec §8, property 4
(`units_sold = 5, outlet_price = 10` and `units_sold = 0,
outlet_price = 20`). -/
def invSample : List InvRow :=
  [ { Codigo := .num 1, Descripcion := "Widget", Stock := .num 5,
      PrecioSala := .num 12, Outlet := .num 10 },
    { Codigo := .num 2, Descripcion := "Gizmo", Stock := .num 0,
      PrecioSala := .num 25, Outlet := .num 20 } ]

/-- Sample outlet table with numeric monthly cells. -/
def outSample : List OutRow :=
  [ { NumeroArticulo := .num 1, Descripcion := "Widget", TotalAnual := .num 30,
      StockOct := .num 5,
      monthly := [.num 10, .num 20, .num 0, .num 0, .num 0, .num 0, .num 0,
        .num 0, .num 0] } ]

/-- Sample outlet table whose monthly cells are all blank (row sums 0). -/
def outBlank : List OutRow :=
  [ { NumeroArticulo := .num 1, Descripcion := "Widget", TotalAnual := .blank,
      StockOct := .num 5,
      monthly := [.blank, .blank, .blank, .blank, .blank, .blank, .blank,
        .blank, .blank] } ]

/-! ### Inversion of a successful run -/

/-- A successful run of `load_and_process_inventory` passed the
emptiness check, all monthly row sums succeeded, and the returned
metrics are `computeMetrics`. -/
theorem load_ok_inv {inventario : List InvRow} {outlet : List OutRow}
    {m : Metrics} (h : load_and_process_inventory inventario outlet = .ok m) :
    inventario ≠ [] ∧ outlet ≠ [] ∧
      ∃ totals, outlet.mapM OutRow.Total_Units_Sold = Except.ok totals ∧
        m = computeMetrics inventario outlet totals := by
  unfold load_and_process_inventory at h
  split at h
  · simp at h
  · next hcond =>
    refine ⟨?_, ?_, ?_⟩
    · intro hnil
      subst hnil
      simp at hcond
    · intro hnil
      subst hnil
      simp at hcond
    · split at h
      · simp at h
      · next totals hts =>
        injection h with h
        exact ⟨totals, hts, h.symm⟩

/-! ### C8 — empty-table failure -/

/-- C8: the claim that the empty-table failure identifies the offending
table by name is false on the code: an empty `Inventario` (with
non-empty `Outlet`) and an empty `Outlet` (with non-empty `Inventario`)
produce the very same error value, whose fixed message (utils.py:43,45)
names no table, so the error cannot identify which table was empty. -/
theorem C8_counterexample :
    load_and_process_inventory [] outSample =
        .error (.loadError
          "Error loading Excel file: One or more sheets are empty") ∧
      load_and_process_inventory invSample [] =
        .error (.loadError
          "Error loading Excel file: One or more sheets are empty") :=
  ⟨rfl, rfl⟩

/-- C8 (amended): if either sheet is empty, processing fails — before
any renaming, coercion or metric computation and with no partial
output — with the fixed error "Error loading Excel file: One or more
sheets are empty", which does not name the offending table. -/
theorem C8_empty_sheet_error (inventario : List InvRow)
    (outlet : List OutRow) (h : inventario = [] ∨ outlet = []) :
    load_and_process_inventory inventario outlet =
      .error (.loadError
        "Error loading Excel file: One or more sheets are empty") := by
  unfold load_and_process_inventory
  rcases h with h | h <;> subst h <;> simp

theorem C8_witness :
    load_and_process_inventory [] outSample =
      .error (.loadError
        "Error loading Excel file: One or more sheets are empty") :=
  C8_empty_sheet_error [] outSample (Or.inl rfl)

/-! ### C2 — numeric coercion policy -/

/-- An outlet table whose `Enero` cell holds the non-numeric text
"N/A". -/
def outNA : List OutRow :=
  [ { NumeroArticulo := .num 1, Descripcion := "Widget", TotalAnual := .num 30,
      StockOct := .num 5,
      monthly := [.num 10, .text "N/A", .num 0, .num 0, .num 0, .num 0,
        .num 0, .num 0, .num 0] } ]

/-- C2: the claim is false for the nine monthly columns: utils.py
coerces only `Outlet_Price`, `Units_Sold`, `Floor_Price` (lines 65-67)
and `Units_In_Stock` (line 68); the monthly columns are never passed
through `to_numeric`, so the text "N/A" in `Enero` does not become 0 —
the row sum at utils.py:87 raises a TypeError and processing aborts
with no result. -/
theorem C2_counterexample :
    load_and_process_inventory invSample outNA = .error .typeError ∧
      ∀ m : Metrics, load_and_process_inventory invSample outNA ≠ .ok m := by
  have h1 : load_and_process_inventory invSample outNA =
      .error .typeError := rfl
  exact ⟨h1, fun m hm => by rw [h1] at hm; exact Except.noConfusion hm⟩

/-- The monthly row sums succeed whenever no monthly cell is
non-numeric text. -/
theorem mapM_totals_ok :
    ∀ outlet : List OutRow,
      (∀ r ∈ outlet, ∀ c ∈ r.monthly, c.isText = false) →
      ∃ totals, outlet.mapM OutRow.Total_Units_Sold = Except.ok totals := by
  intro outlet
  induction outlet with
  | nil => exact fun _ => ⟨[], rfl⟩
  | cons r t ih =>
    intro h
    have hany : r.monthly.any RawCell.isText = false := by
      rw [List.any_eq_false]
      intro c hc
      simp [h r (List.mem_cons_self r t) c hc]
    have hr : OutRow.Total_Units_Sold r =
        Except.ok (r.monthly.filterMap toNumeric).sum := by
      unfold OutRow.Total_Units_Sold sumMonthly
      simp [hany]
    obtain ⟨ts, hts⟩ := ih fun r' hr' c hc => h r' (List.mem_cons_of_mem _ hr') c hc
    refine ⟨(r.monthly.filterMap toNumeric).sum :: ts, ?_⟩
    rw [List.mapM_cons, hr, hts]
    rfl

/-- C2 (amended): the coerce-to-zero policy holds for the four fields
the code actually converts — `Outlet_Price`, `Units_Sold`,
`Floor_Price` in inventory and `Units_In_Stock` in outlet: any blank or
non-numeric cell there becomes 0 and processing runs to completion.
Blank monthly cells are merely skipped by the row sums, and non-numeric
text in a monthly column instead aborts processing (see the
counterexample). -/
theorem C2_coercion (inventario : List InvRow) (outlet : List OutRow)
    (h1 : inventario ≠ []) (h2 : outlet ≠ [])
    (h3 : ∀ r ∈ outlet, ∀ c ∈ r.monthly, c.isText = false) :
    (∀ c : RawCell, toNumeric c = none → coerceNum c = 0) ∧
      ∃ m, load_and_process_inventory inventario outlet = Except.ok m := by
  refine ⟨fun c hc => by simp [coerceNum, hc], ?_⟩
  obtain ⟨totals, hts⟩ := mapM_totals_ok outlet h3
  have hinv : inventario.isEmpty = false := by
    cases inventario with
    | nil => exact absurd rfl h1
    | cons a l => rfl
  have hout : outlet.isEmpty = false := by
    cases outlet with
    | nil => exact absurd rfl h2
    | cons a l => rfl
  refine ⟨computeMetrics inventario outlet totals, ?_⟩
  unfold load_and_process_inventory
  rw [hinv, hout, hts]
  rfl

theorem C2_witness :
    (∀ c : RawCell, toNumeric c = none → coerceNum c = 0) ∧
      ∃ m, load_and_process_inventory invSample outSample = Except.ok m :=
  C2_coercion invSample outSample (by simp [invSample]) (by simp [outSample])
    (by decide)

/-! ### C10 — unparseable stock cells land in unsold_items -/

/-- C10: a row whose raw `Stock` cell is blank or non-numeric text is
coerced to `units_sold = 0` (utils.py:66), so its description appears
in the reported `unsold_items` (utils.py:138): the list cannot
distinguish genuinely unsold products from rows with unparseable sales
data, and such a row takes part in the `idxmin` worst-seller selection
with value 0 like any genuinely unsold row. -/
theorem C10_unparseable_stock (inventario : List InvRow)
    (outlet : List OutRow) (m : Metrics) (r : InvRow)
    (h : load_and_process_inventory inventario outlet = Except.ok m)
    (hr : r ∈ inventario) (hna : toNumeric r.Stock = none) :
    r.Units_Sold = 0 ∧ r.Descripcion ∈ m.unsold_items := by
  have hu : r.Units_Sold = 0 := by simp [InvRow.Units_Sold, coerceNum, hna]
  obtain ⟨-, -, totals, -, hm⟩ := load_ok_inv h
  subst hm
  refine ⟨hu, ?_⟩
  show r.Descripcion ∈ unsoldItems inventario
  exact List.mem_map.mpr ⟨r, List.mem_filter.mpr ⟨hr, by simp [hu]⟩, rfl⟩

/-- An inventory row whose raw `Stock` cell is the text "N/A". -/
def rowNA : InvRow :=
  { Codigo := .num 3, Descripcion := "Mystery", Stock := .text "N/A",
    PrecioSala := .num 5, Outlet := .num 4 }

/-- An inventory table containing the unparseable-stock row. -/
def invNA : List InvRow := [rowNA]

theorem C10_witness :
    ∃ m : Metrics, load_and_process_inventory invNA outBlank = Except.ok m ∧
      rowNA.Units_Sold = 0 ∧ rowNA.Descripcion ∈ m.unsold_items := by
  obtain ⟨mm, hmm⟩ : ∃ mm, load_and_process_inventory invNA outBlank =
      Except.ok mm := ⟨_, rfl⟩
  exact ⟨mm, hmm,
    C10_unparseable_stock invNA outBlank mm rowNA hmm (by simp [invNA]) rfl⟩

/-! ### C7 — validator -/

/-- C7: for every readable workbook, the validator succeeds iff both
required sheet names are present (exact match), and otherwise reports
exactly the set of absent required names, all of them in one message. -/
theorem C7_validator (fileSheets : Finset String) :
    (validate_excel_file fileSheets = .valid ↔
      "Inventario" ∈ fileSheets ∧ "Outlet" ∈ fileSheets) ∧
      (¬("Inventario" ∈ fileSheets ∧ "Outlet" ∈ fileSheets) →
        validate_excel_file fileSheets =
          .missingSheets (requiredSheets.filter (fun s => s ∉ fileSheets))) := by
  have hsub : requiredSheets ⊆ fileSheets ↔
      "Inventario" ∈ fileSheets ∧ "Outlet" ∈ fileSheets := by
    simp [requiredSheets, Finset.insert_subset_iff]
  constructor
  · constructor
    · intro hv
      by_contra hmem
      have hns : ¬ requiredSheets ⊆ fileSheets := fun hs => hmem (hsub.mp hs)
      simp [validate_excel_file, hns] at hv
    · intro hmem
      simp [validate_excel_file, hsub.mpr hmem]
  · intro hmem
    have hns : ¬ requiredSheets ⊆ fileSheets := fun hs => hmem (hsub.mp hs)
    simp [validate_excel_file, hns, Finset.sdiff_eq_filter]

theorem C7_witness :
    validate_excel_file {"Outlet"} =
      .missingSheets
        (requiredSheets.filter (fun s => s ∉ ({"Outlet"} : Finset String))) :=
  (C7_validator {"Outlet"}).2 (by decide)

/-! ### C5 — zero denominators in the four aggregate metrics -/

theorem PFloat.isFinite_num (q : ℚ) : (PFloat.num q).isFinite := trivial

/-- A division guarded by a zero test on its denominator is finite. -/
theorem guardedDiv_finite (a b : ℚ) :
    (if b ≠ 0 then PFloat.div (.num a) (.num b) else .num 0).isFinite := by
  by_cases hb : b ≠ 0
  · rw [if_pos hb, PFloat.div_num_num hb]
    exact PFloat.isFinite_num _
  · rw [if_neg hb]
    exact PFloat.isFinite_num _

/-- A guarded division scaled by 100 is finite. -/
theorem guardedRate_finite (a b : ℚ) :
    (if b ≠ 0 then
        PFloat.mul (PFloat.div (.num a) (.num b)) (.num 100)
      else .num 0).isFinite := by
  by_cases hb : b ≠ 0
  · rw [if_pos hb, PFloat.div_num_num hb]
    exact PFloat.isFinite_num _
  · rw [if_neg hb]
    exact PFloat.isFinite_num _

/-- C5: each of the four aggregate metrics is exactly 0 when its
denominator — the mean of units_in_stock; total_units_sold plus the sum
of units_in_stock; total_sales_outlet; the sum of units_sold divided by
30 — is 0 (utils.py:92-108), and each is always finite (never infinity
or NaN). -/
theorem C5_zero_denominators (inventario : List InvRow)
    (outlet : List OutRow) (m : Metrics)
    (h : load_and_process_inventory inventario outlet = Except.ok m) :
    ((outlet.map OutRow.Units_In_Stock).sum / (outlet.length : ℚ) = 0 →
        m.inventory_turnover = PFloat.num 0) ∧
      (m.total_units_sold + (outlet.map OutRow.Units_In_Stock).sum = 0 →
        m.sell_through_rate = PFloat.num 0) ∧
      (m.total_sales_outlet = 0 → m.stock_to_sales_ratio = PFloat.num 0) ∧
      ((inventario.map InvRow.Units_Sold).sum / 30 = 0 →
        m.inventory_coverage = PFloat.num 0) ∧
      m.inventory_turnover.isFinite ∧ m.sell_through_rate.isFinite ∧
      m.stock_to_sales_ratio.isFinite ∧ m.inventory_coverage.isFinite := by
  obtain ⟨-, -, totals, -, hm⟩ := load_ok_inv h
  subst hm
  simp only [computeMetrics]
  refine ⟨fun hd => by simp [hd], fun hd => by simp [hd], fun hd => by simp [hd],
    fun hd => by simp [hd], guardedDiv_finite _ _, guardedRate_finite _ _,
    guardedDiv_finite _ _, guardedDiv_finite _ _⟩

/-- An inventory table with a single all-zero row. -/
def invZero : List InvRow :=
  [ { Codigo := .num 9, Descripcion := "Dormant", Stock := .num 0,
      PrecioSala := .num 0, Outlet := .num 0 } ]

/-- An outlet table with a single zero-stock, all-blank-months row. -/
def outZero : List OutRow :=
  [ { NumeroArticulo := .num 9, Descripcion := "Dormant", TotalAnual := .blank,
      StockOct := .num 0,
      monthly := [.blank, .blank, .blank, .blank, .blank, .blank, .blank,
        .blank, .blank] } ]

theorem C5_witness :
    (computeMetrics invZero outZero [0]).inventory_turnover = PFloat.num 0 ∧
      (computeMetrics invZero outZero [0]).sell_through_rate = PFloat.num 0 ∧
      (computeMetrics invZero outZero [0]).stock_to_sales_ratio =
        PFloat.num 0 ∧
      (computeMetrics invZero outZero [0]).inventory_coverage =
        PFloat.num 0 := by
  have hload : load_and_process_inventory invZero outZero =
      Except.ok (computeMetrics invZero outZero [0]) := rfl
  have h5 := C5_zero_denominators invZero outZero
    (computeMetrics invZero outZero [0]) hload
  refine ⟨h5.1 ?_, h5.2.1 ?_, h5.2.2.1 ?_, h5.2.2.2.1 ?_⟩
  · norm_num [outZero, OutRow.Units_In_Stock, coerceNum, toNumeric]
  · norm_num [computeMetrics, outZero, OutRow.Units_In_Stock, coerceNum,
      toNumeric]
  · norm_num [computeMetrics, invZero, InvRow.Total_Sales_Outlet_Price,
      InvRow.Outlet_Price, InvRow.Units_Sold, coerceNum, toNumeric]
  · norm_num [invZero, InvRow.Units_Sold, coerceNum, toNumeric]

/-! ### C6 — positional alignment in stock_to_sales_ratio -/

/-- The aligned product-sum of utils.py:102, rewritten as an indexed sum
over row positions (for same-length tables the `zipWith` truncation is
the identity). -/
theorem zipWith_mul_sum_eq :
    ∀ (outlet : List OutRow) (inventario : List InvRow),
      outlet.length = inventario.length →
      (List.zipWith (fun o r => o.Units_In_Stock * r.Outlet_Price)
          outlet inventario).sum =
        ∑ i ∈ Finset.range outlet.length,
          (outlet.getD i default).Units_In_Stock *
            (inventario.getD i default).Outlet_Price := by
  intro outlet
  induction outlet with
  | nil => intro inventario h; simp
  | cons o t ih =>
    intro inventario hlen
    cases inventario with
    | nil => simp at hlen
    | cons r s =>
      simp only [List.zipWith_cons_cons, List.sum_cons, List.length_cons]
      rw [Finset.sum_range_succ']
      simp only [List.getD_cons_zero, List.getD_cons_succ]
      rw [ih s (by simpa using hlen)]
      exact add_comm _ _

/-- C6: when total_sales_outlet is nonzero, stock_to_sales_ratio is the
sum over row positions of the outlet table's units_in_stock times the
inventory table's outlet_price at the same position (pure positional
alignment, no key join — utils.py:102-104), divided by
total_sales_outlet. -/
theorem C6_stock_to_sales_positional (inventario : List InvRow)
    (outlet : List OutRow) (m : Metrics)
    (h : load_and_process_inventory inventario outlet = Except.ok m)
    (hlen : outlet.length = inventario.length)
    (hts : m.total_sales_outlet ≠ 0) :
    m.stock_to_sales_ratio =
      PFloat.num ((∑ i ∈ Finset.range outlet.length,
          (outlet.getD i default).Units_In_Stock *
            (inventario.getD i default).Outlet_Price) /
        m.total_sales_outlet) := by
  obtain ⟨-, -, totals, -, hm⟩ := load_ok_inv h
  subst hm
  have hts' : (inventario.map InvRow.Total_Sales_Outlet_Price).sum ≠ 0 := hts
  simp only [computeMetrics]
  rw [if_pos hts', PFloat.div_num_num hts',
    zipWith_mul_sum_eq outlet inventario hlen]

/-- A two-row outlet table (blank months) matching `invSample`'s length. -/
def outPair : List OutRow :=
  [ { NumeroArticulo := .num 1, Descripcion := "Widget", TotalAnual := .blank,
      StockOct := .num 3,
      monthly := [.blank, .blank, .blank, .blank, .blank, .blank, .blank,
        .blank, .blank] },
    { NumeroArticulo := .num 2, Descripcion := "Gizmo", TotalAnual := .blank,
      StockOct := .num 4,
      monthly := [.blank, .blank, .blank, .blank, .blank, .blank, .blank,
        .blank, .blank] } ]

theorem C6_witness :
    (computeMetrics invSample outPair [0, 0]).stock_to_sales_ratio =
      PFloat.num ((∑ i ∈ Finset.range outPair.length,
          (outPair.getD i default).Units_In_Stock *
            (invSample.getD i default).Outlet_Price) /
        (computeMetrics invSample outPair [0, 0]).total_sales_outlet) := by
  have hload : load_and_process_inventory invSample outPair =
      Except.ok (computeMetrics invSample outPair [0, 0]) := rfl
  refine C6_stock_to_sales_positional invSample outPair
    (computeMetrics invSample outPair [0, 0]) hload rfl ?_
  show (invSample.map InvRow.Total_Sales_Outlet_Price).sum ≠ 0
  norm_num [invSample, InvRow.Total_Sales_Outlet_Price, InvRow.Outlet_Price,
    InvRow.Units_Sold, coerceNum, toNumeric]

/-! ### C4 — the snapshot average selling price -/

/-- A run whose inputs pass the emptiness check and whose monthly row
sums succeed returns `computeMetrics`. -/
theorem load_eq_ok_of (inventario : List InvRow) (outlet : List OutRow)
    (h1 : inventario.isEmpty = false) (h2 : outlet.isEmpty = false)
    {totals : List ℚ}
    (hts : outlet.mapM OutRow.Total_Units_Sold = Except.ok totals) :
    load_and_process_inventory inventario outlet =
      Except.ok (computeMetrics inventario outlet totals) := by
  unfold load_and_process_inventory
  rw [h1, h2, hts]
  rfl

theorem ASP_ne_posInf (r : InvRow) :
    r.Average_Selling_Price ≠ PFloat.posInf := by
  unfold InvRow.Average_Selling_Price
  exact PFloat.replaceInf_ne_posInf _

theorem ASP_ne_negInf (r : InvRow) :
    r.Average_Selling_Price ≠ PFloat.negInf := by
  unfold InvRow.Average_Selling_Price
  exact PFloat.replaceInf_ne_negInf _

theorem contains_eq_false_of_forall_ne {α : Type} [BEq α] [LawfulBEq α]
    {l : List α} {a : α} (h : ∀ x ∈ l, x ≠ a) : l.contains a = false := by
  cases hc : l.contains a with
  | false => rfl
  | true => exact absurd rfl (h a (List.elem_iff.mp hc))

/-- Dropping the NaN entries of the average-selling-price column leaves
exactly the outlet prices of the rows with sales. -/
theorem filterMap_toRat_ASP :
    ∀ inventario : List InvRow,
      (inventario.map InvRow.Average_Selling_Price).filterMap PFloat.toRat? =
        (inventario.filter fun r => r.Units_Sold != 0).map
          InvRow.Outlet_Price := by
  intro inventario
  induction inventario with
  | nil => rfl
  | cons r t ih =>
    by_cases h : r.Units_Sold = 0
    · have hb : (r.Units_Sold != 0) = false := by simp [h]
      simp [List.filterMap_cons, List.filter_cons, ASP_eq, h, hb,
        PFloat.toRat?, ih]
    · have hb : (r.Units_Sold != 0) = true := by simp [h]
      simp [List.filterMap_cons, List.filter_cons, ASP_eq, h, hb,
        PFloat.toRat?, ih]

/-- The snapshot `avg_selling_price` characterised: pandas `mean` skips
the NaN rows (those with `units_sold = 0`), each remaining row
contributes its outlet price, and an all-NaN column gives NaN. -/
theorem meanSkipNa_ASP (inventario : List InvRow) :
    PFloat.meanSkipNa (inventario.map InvRow.Average_Selling_Price) =
      if (inventario.filter fun r => r.Units_Sold != 0).isEmpty then
        PFloat.nan
      else
        PFloat.num
          (((inventario.filter fun r => r.Units_Sold != 0).map
              InvRow.Outlet_Price).sum /
            (((inventario.filter fun r => r.Units_Sold != 0).length : ℚ))) := by
  have hpos :
      (inventario.map InvRow.Average_Selling_Price).contains PFloat.posInf
        = false := by
    refine contains_eq_false_of_forall_ne ?_
    intro x hx
    obtain ⟨r, -, rfl⟩ := List.mem_map.mp hx
    exact ASP_ne_posInf r
  have hneg :
      (inventario.map InvRow.Average_Selling_Price).contains PFloat.negInf
        = false := by
    refine contains_eq_false_of_forall_ne ?_
    intro x hx
    obtain ⟨r, -, rfl⟩ := List.mem_map.mp hx
    exact ASP_ne_negInf r
  unfold PFloat.meanSkipNa
  rw [hpos, hneg]
  simp only [Bool.false_eq_true, if_false, filterMap_toRat_ASP]
  cases hf : (inventario.filter fun r => r.Units_Sold != 0) with
  | nil => simp
  | cons a l => simp [List.isEmpty, List.length_map]

/-- C4: the per-row value for the claim, as the spec states it: 0 for a
row with no sales, else total outlet sales over units sold. -/
def claimRowASP (r : InvRow) : ℚ :=
  if r.Units_Sold = 0 then 0 else r.Total_Sales_Outlet_Price / r.Units_Sold

/-- The snapshot mean as the claim states it: the unweighted arithmetic
mean over ALL inventory rows, zero-sales rows contributing 0. -/
def claimAvgASP (inventario : List InvRow) : ℚ :=
  (inventario.map claimRowASP).sum / (inventario.length : ℚ)

/-- C4: the claim "avg_selling_price is the unweighted mean over all
inventory rows, rows with units_sold = 0 contributing 0" is false on
the code: on the spec's own example rows (5 units at price 10; 0 units
at price 20) the claimed mean is (10 + 0)/2 = 5, but the code's NaN
for the zero-sales row is skipped by `Series.mean`, producing 10. -/
theorem C4_counterexample :
    (load_and_process_inventory invSample outSample).map
        Metrics.avg_selling_price = Except.ok (PFloat.num 10) ∧
      claimAvgASP invSample = 5 ∧
      PFloat.num 10 ≠ PFloat.num (claimAvgASP invSample) := by
  obtain ⟨totals, hts⟩ := mapM_totals_ok outSample (by decide)
  have hload := load_eq_ok_of invSample outSample rfl rfl hts
  have h1 : invSample.map InvRow.Average_Selling_Price =
      [PFloat.num 10, PFloat.nan] := by
    simp only [invSample, List.map_cons, List.map_nil, ASP_eq]
    norm_num [InvRow.Units_Sold, InvRow.Outlet_Price, coerceNum, toNumeric]
  have h2 : PFloat.meanSkipNa [PFloat.num 10, PFloat.nan] = PFloat.num 10 := by
    have hc1 : ([PFloat.num 10, PFloat.nan].contains PFloat.posInf) = false := by
      refine contains_eq_false_of_forall_ne ?_
      intro x hx
      rcases List.mem_cons.mp hx with h | h
      · subst h; intro hcontra; exact PFloat.noConfusion hcontra
      · rcases List.mem_singleton.mp h with rfl
        intro hcontra; exact PFloat.noConfusion hcontra
    have hc2 : ([PFloat.num 10, PFloat.nan].contains PFloat.negInf) = false := by
      refine contains_eq_false_of_forall_ne ?_
      intro x hx
      rcases List.mem_cons.mp hx with h | h
      · subst h; intro hcontra; exact PFloat.noConfusion hcontra
      · rcases List.mem_singleton.mp h with rfl
        intro hcontra; exact PFloat.noConfusion hcontra
    unfold PFloat.meanSkipNa
    rw [hc1, hc2]
    norm_num [List.filterMap_cons, PFloat.toRat?]
  have h3 : claimAvgASP invSample = 5 := by
    norm_num [claimAvgASP, claimRowASP, invSample, InvRow.Units_Sold,
      InvRow.Total_Sales_Outlet_Price, InvRow.Outlet_Price, coerceNum,
      toNumeric]
  refine ⟨?_, h3, ?_⟩
  · rw [hload]
    show Except.ok
        ((computeMetrics invSample outSample totals).avg_selling_price) =
      Except.ok (PFloat.num 10)
    rw [show (computeMetrics invSample outSample totals).avg_selling_price =
        PFloat.meanSkipNa (invSample.map InvRow.Average_Selling_Price)
        from rfl, h1, h2]
  · rw [h3]
    norm_num

/-- C4 (amended): avg_selling_price is the NaN-skipping mean of the
per-row average_selling_price: rows with units_sold = 0 produce NaN
(see C1) and are excluded by pandas `mean`, so the snapshot field
equals the unweighted mean of outlet_price over the rows with
units_sold ≠ 0, and is NaN when no row has sales — not the all-rows
mean the claim states. -/
theorem C4_avg_selling_price (inventario : List InvRow)
    (outlet : List OutRow) (m : Metrics)
    (h : load_and_process_inventory inventario outlet = Except.ok m) :
    m.avg_selling_price =
      if (inventario.filter fun r => r.Units_Sold != 0).isEmpty then
        PFloat.nan
      else
        PFloat.num
          (((inventario.filter fun r => r.Units_Sold != 0).map
              InvRow.Outlet_Price).sum /
            (((inventario.filter fun r => r.Units_Sold != 0).length : ℚ))) := by
  obtain ⟨-, -, totals, -, hm⟩ := load_ok_inv h
  subst hm
  exact meanSkipNa_ASP inventario

theorem C4_witness :
    (computeMetrics invSample outPair [0, 0]).avg_selling_price =
      if (invSample.filter fun r => r.Units_Sold != 0).isEmpty then
        PFloat.nan
      else
        PFloat.num
          (((invSample.filter fun r => r.Units_Sold != 0).map
              InvRow.Outlet_Price).sum /
            (((invSample.filter fun r => r.Units_Sold != 0).length : ℚ))) :=
  C4_avg_selling_price invSample outPair _ rfl

/-! ### C9 — best and worst sellers -/

/-- Positions strictly before the first occurrence of `a` do not hold
`a`. -/
theorem getD_ne_of_lt_indexOf {α : Type} [DecidableEq α] (d : α) :
    ∀ (l : List α) (a : α) (k : ℕ), k < l.indexOf a → l.getD k d ≠ a := by
  intro l a
  induction l with
  | nil =>
    intro k hk
    simp [List.indexOf_nil] at hk
  | cons b t ih =>
    intro k hk
    by_cases hba : b = a
    · rw [hba, List.indexOf_cons_self] at hk
      exact absurd hk (Nat.not_lt_zero k)
    · cases k with
      | zero => simpa using hba
      | succ n =>
        rw [List.indexOf_cons_ne t hba] at hk
        simpa using ih n (Nat.lt_of_succ_lt_succ hk)

/-- `idxmaxQ` on a non-empty list: in range, an upper bound of the
list, and the first position attaining the maximum. -/
theorem idxmaxQ_spec (xs : List ℚ) (hne : xs ≠ []) :
    idxmaxQ xs < xs.length ∧
      (∀ k, k < xs.length → xs.getD k 0 ≤ xs.getD (idxmaxQ xs) 0) ∧
      (∀ k, k < idxmaxQ xs → xs.getD k 0 < xs.getD (idxmaxQ xs) 0) := by
  obtain ⟨mx, hm⟩ : ∃ mx, xs.max? = some mx := by
    cases h : xs.max? with
    | none => exact absurd (List.max?_eq_none_iff.mp h) hne
    | some mx => exact ⟨mx, rfl⟩
  have hmem : mx ∈ xs := List.max?_mem (fun a b => max_choice a b) hm
  have hub : ∀ b ∈ xs, b ≤ mx :=
    (List.max?_le_iff (fun a b c => max_le_iff) hm).mp le_rfl
  have hidx : idxmaxQ xs = xs.indexOf mx := by simp [idxmaxQ, hm]
  have hmlt : xs.indexOf mx < xs.length := List.indexOf_lt_length.mpr hmem
  have hlt : idxmaxQ xs < xs.length := by rw [hidx]; exact hmlt
  have hval : xs.getD (idxmaxQ xs) 0 = mx := by
    rw [hidx, List.getD_eq_getElem _ _ hmlt]
    exact List.getElem_indexOf hmlt
  have hmem' : ∀ k, k < xs.length → xs.getD k 0 ∈ xs := by
    intro k hk
    rw [List.getD_eq_getElem _ _ hk]
    exact List.getElem_mem hk
  refine ⟨hlt, ?_, ?_⟩
  · intro k hk
    rw [hval]
    exact hub _ (hmem' k hk)
  · intro k hk
    have hkl : k < xs.length := lt_trans hk hlt
    have hne' : xs.getD k 0 ≠ mx := by
      rw [hidx] at hk
      exact getD_ne_of_lt_indexOf 0 xs mx k hk
    rw [hval]
    exact lt_of_le_of_ne (hub _ (hmem' k hkl)) hne'

/-- `idxminQ` on a non-empty list: in range, a lower bound of the list,
and the first position attaining the minimum. -/
theorem idxminQ_spec (xs : List ℚ) (hne : xs ≠ []) :
    idxminQ xs < xs.length ∧
      (∀ k, k < xs.length → xs.getD (idxminQ xs) 0 ≤ xs.getD k 0) ∧
      (∀ k, k < idxminQ xs → xs.getD (idxminQ xs) 0 < xs.getD k 0) := by
  obtain ⟨mn, hm⟩ : ∃ mn, xs.min? = some mn := by
    cases h : xs.min? with
    | none => exact absurd (List.min?_eq_none_iff.mp h) hne
    | some mn => exact ⟨mn, rfl⟩
  have hmem : mn ∈ xs := List.min?_mem (fun a b => min_choice a b) hm
  have hlb : ∀ b ∈ xs, mn ≤ b :=
    (List.le_min?_iff (fun a b c => le_min_iff) hm).mp le_rfl
  have hidx : idxminQ xs = xs.indexOf mn := by simp [idxminQ, hm]
  have hmlt : xs.indexOf mn < xs.length := List.indexOf_lt_length.mpr hmem
  have hlt : idxminQ xs < xs.length := by rw [hidx]; exact hmlt
  have hval : xs.getD (idxminQ xs) 0 = mn := by
    rw [hidx, List.getD_eq_getElem _ _ hmlt]
    exact List.getElem_indexOf hmlt
  have hmem' : ∀ k, k < xs.length → xs.getD k 0 ∈ xs := by
    intro k hk
    rw [List.getD_eq_getElem _ _ hk]
    exact List.getElem_mem hk
  refine ⟨hlt, ?_, ?_⟩
  · intro k hk
    rw [hval]
    exact hlb _ (hmem' k hk)
  · intro k hk
    have hkl : k < xs.length := lt_trans hk hlt
    have hne' : xs.getD k 0 ≠ mn := by
      rw [hidx] at hk
      exact getD_ne_of_lt_indexOf 0 xs mn k hk
    rw [hval]
    exact lt_of_le_of_ne (hlb _ (hmem' k hkl)) (Ne.symm hne')

/-- Reading the coerced units column at a position is reading the row
there. -/
theorem getD_map_Units_Sold (inventario : List InvRow) (k : ℕ)
    (hk : k < inventario.length) :
    (inventario.map InvRow.Units_Sold).getD k 0 =
      (inventario.getD k default).Units_Sold := by
  rw [List.getD_eq_getElem _ _ (by simpa using hk),
    List.getD_eq_getElem _ _ hk]
  simp

/-- C9: best_seller (worst_seller) reports the description and
units_sold of the first row attaining the maximum (minimum) of
units_sold — `idxmax`/`idxmin` break ties towards the earliest source
row (utils.py:123-135). -/
theorem C9_best_worst (inventario : List InvRow) (outlet : List OutRow)
    (m : Metrics)
    (h : load_and_process_inventory inventario outlet = Except.ok m) :
    ∃ i j, i < inventario.length ∧ j < inventario.length ∧
      m.best_seller = ((inventario.getD i default).Descripcion,
        (inventario.getD i default).Units_Sold) ∧
      (∀ k, k < inventario.length →
        (inventario.getD k default).Units_Sold ≤
          (inventario.getD i default).Units_Sold) ∧
      (∀ k, k < i →
        (inventario.getD k default).Units_Sold <
          (inventario.getD i default).Units_Sold) ∧
      m.worst_seller = ((inventario.getD j default).Descripcion,
        (inventario.getD j default).Units_Sold) ∧
      (∀ k, k < inventario.length →
        (inventario.getD j default).Units_Sold ≤
          (inventario.getD k default).Units_Sold) ∧
      (∀ k, k < j →
        (inventario.getD j default).Units_Sold <
          (inventario.getD k default).Units_Sold) := by
  obtain ⟨hinv, -, totals, -, hm⟩ := load_ok_inv h
  subst hm
  have hnil : inventario.map InvRow.Units_Sold ≠ [] := by
    intro hx
    exact hinv (List.map_eq_nil_iff.mp hx)
  obtain ⟨hltB, hubB, hfstB⟩ :=
    idxmaxQ_spec (inventario.map InvRow.Units_Sold) hnil
  obtain ⟨hltW, hlbW, hfstW⟩ :=
    idxminQ_spec (inventario.map InvRow.Units_Sold) hnil
  rw [List.length_map] at hltB hltW
  refine ⟨idxmaxQ (inventario.map InvRow.Units_Sold),
    idxminQ (inventario.map InvRow.Units_Sold), hltB, hltW,
    rfl, ?_, ?_, rfl, ?_, ?_⟩
  · intro k hk
    have := hubB k (by simpa using hk)
    rwa [getD_map_Units_Sold inventario k hk,
      getD_map_Units_Sold inventario _ hltB] at this
  · intro k hk
    have := hfstB k hk
    rwa [getD_map_Units_Sold inventario k (lt_trans hk hltB),
      getD_map_Units_Sold inventario _ hltB] at this
  · intro k hk
    have := hlbW k (by simpa using hk)
    rwa [getD_map_Units_Sold inventario k hk,
      getD_map_Units_Sold inventario _ hltW] at this
  · intro k hk
    have := hfstW k hk
    rwa [getD_map_Units_Sold inventario k (lt_trans hk hltW),
      getD_map_Units_Sold inventario _ hltW] at this

theorem C9_witness :
    ∃ i j, i < invSample.length ∧ j < invSample.length ∧
      (computeMetrics invSample outPair [0, 0]).best_seller =
        ((invSample.getD i default).Descripcion,
          (invSample.getD i default).Units_Sold) ∧
      (∀ k, k < invSample.length →
        (invSample.getD k default).Units_Sold ≤
          (invSample.getD i default).Units_Sold) ∧
      (∀ k, k < i →
        (invSample.getD k default).Units_Sold <
          (invSample.getD i default).Units_Sold) ∧
      (computeMetrics invSample outPair [0, 0]).worst_seller =
        ((invSample.getD j default).Descripcion,
          (invSample.getD j default).Units_Sold) ∧
      (∀ k, k < invSample.length →
        (invSample.getD j default).Units_Sold ≤
          (invSample.getD k default).Units_Sold) ∧
      (∀ k, k < j →
        (invSample.getD j default).Units_Sold <
          (invSample.getD k default).Units_Sold) :=
  C9_best_worst invSample outPair _ rfl
